import Mathlib

set_option maxRecDepth 16384

/-!
Shallow embedding of the performance-classification and action-item
derivation core of the Team-KPIs dashboard:

* `src/src/utils/performanceCategories.ts` — the category classifier and
  the category statistics aggregator;
* `src/unnamed/part_004` (the action-items utility module) — the
  recommendation table, trend analyzer and action-item generator;
* the annual-report target selection fragment of
  `src/src/components/Dashboard.tsx` (lines 721–737).

Numbers: all counters and targets are integers in the data model, so we
model them as `ℤ`.  The one place where JavaScript floating point
semantics is observable is the achievement division `value / monthly_target`
when `monthly_target = 0` (giving `Infinity` / `-Infinity` / `NaN`); we model
a JS numeric result as the `JSInt` type below.  `Math.round` rounds half
toward +∞, modelled as `⌊q + 1/2⌋` over exact rationals.

Records store `month` as a numeric string in the source (`"1"`–`"12"`,
cf. `record.month.padStart(2, '0')` and `parseInt(record.month)` in
`Dashboard.tsx`); we model the already-parsed integer.
-/

/-- `Math.round` of JavaScript: round to nearest, half toward +∞. -/
def jsRound (q : ℚ) : ℤ := ⌊q + 1/2⌋

/-- `Math.round(num / den)` for a nonzero integer `den`, computed in
integer arithmetic: `⌊num/den + 1/2⌋ = ⌊(2·num + den) / (2·den)⌋`, and a
floor of a ratio with positive denominator is euclidean division.
`jsRoundDiv_eq` below proves this equals `jsRound ((num : ℚ) / den)`. -/
def jsRoundDiv (num den : ℤ) : ℤ :=
  let n := 2 * num + den
  let d := 2 * den
  if 0 ≤ d then n / d else (-n) / (-d)

/-- The observable values of a JavaScript number in this code base:
an exact integer, `Infinity`, `-Infinity`, or `NaN`. -/
inductive JSInt where
  | int (n : ℤ)
  | posInf
  | negInf
  | nan
deriving DecidableEq

/-- JavaScript `x <= b` for a `JSInt` against an integer bound
(`NaN <= b` is `false`, `Infinity <= b` is `false`, `-Infinity <= b` is `true`). -/
def JSInt.le (x : JSInt) (b : ℤ) : Bool :=
  match x with
  | .int n => n ≤ b
  | .posInf => false
  | .negInf => true
  | .nan => false

/-- JavaScript string conversion of a `JSInt` (template-literal rendering). -/
def JSInt.toStr : JSInt → String
  | .int n => toString n
  | .posInf => "Infinity"
  | .negInf => "-Infinity"
  | .nan => "NaN"

/-- `Math.round((value / target) * 100)` as JavaScript computes it,
including the `target = 0` cases where the division is not finite.
For `target ≠ 0` this is `Math.round(100·value / target)`, written with
the executable `jsRoundDiv`. -/
def jsAchievement (value target : ℤ) : JSInt :=
  if target = 0 then
    if value > 0 then .posInf
    else if value < 0 then .negInf
    else .nan
  else .int (jsRoundDiv (100 * value) target)

/-- `PerformanceCategory` of `performanceCategories.ts`. -/
structure PerformanceCategory where
  name : String
  color : String
  bgColor : String
  textColor : String
  range : String
deriving DecidableEq

/-- `performanceCategories[0]`. -/
def criticalCategory : PerformanceCategory :=
  { name := "Critical", color := "#EF4444", bgColor := "bg-red-100",
    textColor := "text-red-800", range := "0-66%" }

/-- `performanceCategories[1]`. -/
def badCategory : PerformanceCategory :=
  { name := "Bad", color := "#F59E0B", bgColor := "bg-amber-100",
    textColor := "text-amber-800", range := "67-83%" }

/-- `performanceCategories[2]`. -/
def targetCategory : PerformanceCategory :=
  { name := "Target", color := "#10B981", bgColor := "bg-emerald-100",
    textColor := "text-emerald-800", range := "84-119%" }

/-- `performanceCategories[3]`. -/
def goodCategory : PerformanceCategory :=
  { name := "Good", color := "#3B82F6", bgColor := "bg-blue-100",
    textColor := "text-blue-800", range := "120%+" }

/-- The `performanceCategories` array. -/
def performanceCategories : List PerformanceCategory :=
  [criticalCategory, badCategory, targetCategory, goodCategory]

/-- `getPerformanceCategory` of `performanceCategories.ts`.  The source
indexes `performanceCategories[0..3]`; the named definitions above are
those entries.  The argument is a JS number (`Math.round` result), which
is `Infinity`/`NaN` only when a caller divides by a zero target. -/
def getPerformanceCategory (achievementPercentage : JSInt) : PerformanceCategory :=
  if achievementPercentage.le 66 then criticalCategory
  else if achievementPercentage.le 83 then badCategory
  else if achievementPercentage.le 119 then targetCategory
  else goodCategory

/-- `PerformanceRecord` of `src/src/lib/supabase.ts` (timestamps and the
joined `analysts` object are never read by the functions modelled here
and are elided; `month` is the parsed numeric month string). -/
structure PerformanceRecord where
  id : String
  analyst_id : String
  month : ℤ
  year : ℤ
  outreaches : ℤ
  live_links : ℤ
  high_da_links : ℤ
  content_distribution : ℤ
  new_blogs : ℤ
  blog_optimizations : ℤ
  top_5_keywords : ℤ
deriving DecidableEq

/-- `KPITarget` of `src/src/lib/supabase.ts` (`created_at` elided, unused). -/
structure KPITarget where
  id : String
  kpi_name : String
  monthly_target : ℤ
  annual_target : ℤ
  role : String
deriving DecidableEq

/-- The fixed `kpiNames` array, identical in `performanceCategories.ts`
and in the action-items module. -/
def kpiNames : List String :=
  ["outreaches", "live_links", "high_da_links", "content_distribution",
   "new_blogs", "blog_optimizations", "top_5_keywords"]

/-- Dynamic field access `record[kpiName]` for the seven tracked counters.
The source only ever indexes with the seven `kpiNames` keys; for any other
key we return 0 (the source would read `undefined`, which every guard
`> 0` in the modelled code treats the same as 0). -/
def kpiValue (r : PerformanceRecord) (k : String) : ℤ :=
  if k = "outreaches" then r.outreaches
  else if k = "live_links" then r.live_links
  else if k = "high_da_links" then r.high_da_links
  else if k = "content_distribution" then r.content_distribution
  else if k = "new_blogs" then r.new_blogs
  else if k = "blog_optimizations" then r.blog_optimizations
  else if k = "top_5_keywords" then r.top_5_keywords
  else 0

/-- The `stats` accumulator of `getPerformanceCategoryStats`. -/
structure CategoryStats where
  critical : ℕ
  bad : ℕ
  target : ℕ
  good : ℕ
  total : ℕ
deriving DecidableEq

/-- One `switch (category.name)` step of `getPerformanceCategoryStats`
(the `stats.total++` happens unconditionally before the switch). -/
def bumpStats (s : CategoryStats) (c : PerformanceCategory) : CategoryStats :=
  let s := { s with total := s.total + 1 }
  if c.name = "Critical" then { s with critical := s.critical + 1 }
  else if c.name = "Bad" then { s with bad := s.bad + 1 }
  else if c.name = "Target" then { s with target := s.target + 1 }
  else if c.name = "Good" then { s with good := s.good + 1 }
  else s

/-- The body of the inner `kpiNames.forEach` of `getPerformanceCategoryStats`:
look up the first target for the metric; only pairs whose target has
`monthly_target > 0` are classified and counted. -/
def statsForPair (targets : List KPITarget) (record : PerformanceRecord)
    (s : CategoryStats) (kpiName : String) : CategoryStats :=
  match targets.find? (fun t => t.kpi_name == kpiName) with
  | some target =>
      if target.monthly_target > 0 then
        bumpStats s (getPerformanceCategory
          (jsAchievement (kpiValue record kpiName) target.monthly_target))
      else s
  | none => s

/-- `getPerformanceCategoryStats` of `performanceCategories.ts`. -/
def getPerformanceCategoryStats (records : List PerformanceRecord)
    (targets : List KPITarget) : CategoryStats :=
  records.foldl
    (fun s record => kpiNames.foldl (statsForPair targets record) s)
    { critical := 0, bad := 0, target := 0, good := 0, total := 0 }

/-- Trend direction union `'improving' | 'declining' | 'stable'`. -/
inductive TrendDirection where
  | improving
  | declining
  | stable
deriving DecidableEq

/-- Template-literal rendering of a trend direction. -/
def TrendDirection.toStr : TrendDirection → String
  | .improving => "improving"
  | .declining => "declining"
  | .stable => "stable"

/-- `PerformanceTrend` of the action-items module. -/
structure PerformanceTrend where
  kpi : String
  current : ℤ
  previous : ℤ
  trend : TrendDirection
  changePercentage : ℤ
deriving DecidableEq

/-- `new Date(r.year, parseInt(r.month) - 1).getTime()` is strictly
monotone in `12 * year + (month - 1)`; the comparator of `analyzeTrend`
compares exactly these keys. -/
def dateKey (r : PerformanceRecord) : ℤ := 12 * r.year + (r.month - 1)

/-- Descending-by-date order used by `analyzeTrend`'s comparator
`(a, b) => bDate.getTime() - aDate.getTime()`. -/
def dateGE (a b : PerformanceRecord) : Prop := dateKey b ≤ dateKey a

instance : DecidableRel dateGE :=
  fun a b => inferInstanceAs (Decidable (dateKey b ≤ dateKey a))

instance : IsTotal PerformanceRecord dateGE :=
  ⟨fun a b => (le_total (dateKey b) (dateKey a)).imp id id⟩

instance : IsTrans PerformanceRecord dateGE :=
  ⟨fun _x _y _z h h' => le_trans h' h⟩

/-- The stable descending sort `previousRecords.filter(...).sort(...)` of
`analyzeTrend`.  `Array.prototype.sort` is a stable sort, and a stable
sort for a total preorder is unique, so the insertion sort computes the
same list. -/
def sortPreviousDesc (l : List PerformanceRecord) : List PerformanceRecord :=
  l.insertionSort dateGE

/-- `analyzeTrend` of the action-items module.  It filters the history to
the same `analyst_id` (it does not remove `currentRecord` itself), takes
the head of the stable descending date sort as the previous record, and
derives direction and change percentage. -/
def analyzeTrend (kpiName : String) (currentRecord : PerformanceRecord)
    (previousRecords : List PerformanceRecord) : PerformanceTrend :=
  let currentValue := kpiValue currentRecord kpiName
  let sortedPrevious := sortPreviousDesc
    (previousRecords.filter (fun r => r.analyst_id == currentRecord.analyst_id))
  let previousValue : ℤ := match sortedPrevious.head? with
    | some p => kpiValue p kpiName
    | none => 0
  if previousValue > 0 then
    let changePercentage := jsRoundDiv (100 * (currentValue - previousValue)) previousValue
    { kpi := kpiName, current := currentValue, previous := previousValue,
      trend := if changePercentage > 5 then .improving
               else if changePercentage < -5 then .declining
               else .stable,
      changePercentage := changePercentage }
  else if currentValue > 0 then
    { kpi := kpiName, current := currentValue, previous := previousValue,
      trend := .improving, changePercentage := 100 }
  else
    { kpi := kpiName, current := currentValue, previous := previousValue,
      trend := .stable, changePercentage := 0 }


/-- One cell of the `KPI_RECOMMENDATIONS` table. -/
structure RecommendationCell where
  title : String
  recommendations : List String
deriving DecidableEq

/-- The four category cells of one metric in `KPI_RECOMMENDATIONS`. -/
structure KPIRecs where
  critical : RecommendationCell
  bad : RecommendationCell
  target : RecommendationCell
  good : RecommendationCell
deriving DecidableEq

/-- String-keyed cell access `kpiRecommendations[category.name.toLowerCase()]`. -/
def KPIRecs.cell (s : KPIRecs) (categoryName : String) : Option RecommendationCell :=
  if categoryName = "critical" then some s.critical
  else if categoryName = "bad" then some s.bad
  else if categoryName = "target" then some s.target
  else if categoryName = "good" then some s.good
  else none

/-- The `outreaches` entry of `KPI_RECOMMENDATIONS`. -/
def recs_outreaches : KPIRecs where
  critical :=
    { title := "Outreach Performance Critical - Immediate Action Required",
      recommendations :=
        ["Review and update outreach templates for better engagement",
         "Analyze competitor outreach strategies and adapt successful approaches",
         "Implement automated outreach tools to increase volume",
         "Schedule daily outreach blocks (2-3 hours minimum)",
         "Create personalized outreach sequences for different prospect types",
         "Review and expand prospect database with high-quality targets"] }
  bad :=
    { title := "Outreach Performance Below Target - Needs Improvement",
      recommendations :=
        ["A/B test different subject lines and email templates",
         "Increase daily outreach target by 25%",
         "Focus on building relationships before pitching",
         "Research prospects more thoroughly for personalization",
         "Follow up consistently with previous outreach attempts"] }
  target :=
    { title := "Outreach Performance On Track - Maintain Momentum",
      recommendations :=
        ["Continue current outreach strategies",
         "Document successful outreach templates for team sharing",
         "Explore new outreach channels (LinkedIn, Twitter, etc.)",
         "Build relationships with key industry contacts"] }
  good :=
    { title := "Excellent Outreach Performance - Scale Success",
      recommendations :=
        ["Share successful strategies with team members",
         "Mentor other analysts on outreach best practices",
         "Explore premium outreach opportunities",
         "Focus on building long-term industry relationships"] }

/-- The `live_links` entry of `KPI_RECOMMENDATIONS`. -/
def recs_live_links : KPIRecs where
  critical :=
    { title := "Link Acquisition Critical - Immediate Intervention Required",
      recommendations :=
        ["Review outreach-to-link conversion rates and identify bottlenecks",
         "Focus on relationship building before link requests",
         "Improve content quality to increase link-worthy assets",
         "Analyze successful link placements and replicate approach",
         "Consider guest posting opportunities for easier link acquisition",
         "Schedule weekly follow-ups with promising prospects"] }
  bad :=
    { title := "Link Acquisition Below Target - Strategy Review Needed",
      recommendations :=
        ["Analyze rejection reasons and address common objections",
         "Improve value proposition in outreach messages",
         "Focus on building relationships before asking for links",
         "Create more linkable assets (infographics, studies, tools)",
         "Target lower-competition, niche-specific opportunities"] }
  target :=
    { title := "Link Acquisition On Target - Optimize for Quality",
      recommendations :=
        ["Maintain current link building strategies",
         "Focus on acquiring higher authority links",
         "Build relationships for future link opportunities",
         "Document successful link building tactics"] }
  good :=
    { title := "Outstanding Link Acquisition - Maximize Impact",
      recommendations :=
        ["Focus on high-authority, industry-leading publications",
         "Develop thought leadership content for premium placements",
         "Build strategic partnerships for ongoing link opportunities",
         "Share successful link building strategies with team"] }

/-- The `high_da_links` entry of `KPI_RECOMMENDATIONS`. -/
def recs_high_da_links : KPIRecs where
  critical :=
    { title := "High DA Link Acquisition Critical - Strategic Overhaul Needed",
      recommendations :=
        ["Research and target top-tier publications in your industry",
         "Develop thought leadership content worthy of high-DA sites",
         "Build relationships with editors at major publications",
         "Create comprehensive, data-driven content that attracts high-DA links",
         "Consider HARO (Help a Reporter Out) for media opportunities",
         "Analyze competitors\x27 high-DA backlinks for targeting ideas"] }
  bad :=
    { title := "High DA Links Below Target - Quality Focus Required",
      recommendations :=
        ["Prioritize relationship building with high-authority site editors",
         "Create exceptional, newsworthy content",
         "Participate in industry events and conferences for networking",
         "Develop original research and data studies",
         "Focus on fewer, higher-quality outreach attempts"] }
  target :=
    { title := "High DA Link Performance On Track - Maintain Standards",
      recommendations :=
        ["Continue targeting high-authority publications",
         "Maintain relationships with key industry contacts",
         "Focus on creating exceptional, shareable content",
         "Document successful high-DA link strategies"] }
  good :=
    { title := "Exceptional High DA Link Performance - Industry Leadership",
      recommendations :=
        ["Establish yourself as a thought leader in the industry",
         "Speak at conferences and industry events",
         "Develop strategic partnerships with major publications",
         "Mentor team members on high-DA link acquisition"] }

/-- The `content_distribution` entry of `KPI_RECOMMENDATIONS`. -/
def recs_content_distribution : KPIRecs where
  critical :=
    { title := "Content Distribution Critical - Multi-Channel Strategy Needed",
      recommendations :=
        ["Audit current distribution channels and identify gaps",
         "Develop a comprehensive content distribution calendar",
         "Automate social media posting with scheduling tools",
         "Build email lists for content promotion",
         "Engage with industry communities and forums",
         "Repurpose content for different platforms and formats"] }
  bad :=
    { title := "Content Distribution Below Target - Channel Expansion Required",
      recommendations :=
        ["Increase posting frequency across all channels",
         "Explore new distribution platforms (Reddit, Quora, industry forums)",
         "Build relationships with influencers for content amplification",
         "Create platform-specific content variations",
         "Implement content syndication strategies"] }
  target :=
    { title := "Content Distribution On Track - Optimize Engagement",
      recommendations :=
        ["Focus on improving engagement rates on existing channels",
         "Analyze best-performing content and replicate success",
         "Build community around your content",
         "Experiment with new content formats"] }
  good :=
    { title := "Excellent Content Distribution - Maximize Reach",
      recommendations :=
        ["Develop strategic partnerships for content amplification",
         "Create viral-worthy content campaigns",
         "Build thought leadership through consistent, valuable content",
         "Share distribution strategies with team members"] }

/-- The `new_blogs` entry of `KPI_RECOMMENDATIONS`. -/
def recs_new_blogs : KPIRecs where
  critical :=
    { title := "Blog Content Creation Critical - Production Ramp-Up Required",
      recommendations :=
        ["Develop a structured content calendar with daily writing goals",
         "Use content templates to speed up creation process",
         "Repurpose existing content into new blog formats",
         "Collaborate with subject matter experts for faster content creation",
         "Implement content batching techniques",
         "Consider outsourcing research to focus on writing"] }
  bad :=
    { title := "Blog Creation Below Target - Workflow Optimization Needed",
      recommendations :=
        ["Streamline content creation workflow",
         "Create content templates for common topics",
         "Batch similar content creation tasks",
         "Set daily writing goals and track progress",
         "Use AI tools to assist with research and outlining"] }
  target :=
    { title := "Blog Creation On Track - Quality Focus",
      recommendations :=
        ["Maintain current content creation pace",
         "Focus on improving content quality and depth",
         "Optimize content for search engines",
         "Track content performance and iterate"] }
  good :=
    { title := "Outstanding Blog Production - Content Leadership",
      recommendations :=
        ["Focus on creating comprehensive, authoritative content",
         "Develop content series and pillar pages",
         "Share content creation best practices with team",
         "Explore advanced content formats (interactive, multimedia)"] }

/-- The `blog_optimizations` entry of `KPI_RECOMMENDATIONS`. -/
def recs_blog_optimizations : KPIRecs where
  critical :=
    { title := "Blog Optimization Critical - Technical SEO Audit Required",
      recommendations :=
        ["Conduct comprehensive technical SEO audit of existing content",
         "Prioritize optimization of highest-traffic pages first",
         "Update meta titles, descriptions, and header tags",
         "Improve internal linking structure",
         "Optimize page loading speeds and mobile responsiveness",
         "Add schema markup to improve search visibility"] }
  bad :=
    { title := "Blog Optimization Below Target - Systematic Approach Needed",
      recommendations :=
        ["Create optimization checklist and follow systematically",
         "Focus on pages with highest potential impact",
         "Update outdated content with fresh information",
         "Improve keyword targeting and content structure",
         "Add relevant internal and external links"] }
  target :=
    { title := "Blog Optimization On Track - Maintain Quality",
      recommendations :=
        ["Continue systematic optimization approach",
         "Monitor optimization impact on search rankings",
         "Focus on user experience improvements",
         "Document successful optimization strategies"] }
  good :=
    { title := "Excellent Blog Optimization - Advanced Techniques",
      recommendations :=
        ["Implement advanced SEO techniques (topic clusters, semantic SEO)",
         "Focus on featured snippet optimization",
         "Develop comprehensive content hubs",
         "Share optimization expertise with team members"] }

/-- The `top_5_keywords` entry of `KPI_RECOMMENDATIONS`. -/
def recs_top_5_keywords : KPIRecs where
  critical :=
    { title := "Keyword Rankings Critical - SEO Strategy Overhaul Required",
      recommendations :=
        ["Conduct comprehensive keyword research and competitive analysis",
         "Audit current content for keyword optimization opportunities",
         "Develop targeted content for priority keywords",
         "Improve technical SEO foundation (site speed, mobile, crawlability)",
         "Build topical authority through comprehensive content coverage",
         "Analyze SERP features and optimize for featured snippets"] }
  bad :=
    { title := "Keyword Rankings Below Target - Focused Optimization Required",
      recommendations :=
        ["Prioritize optimization of pages closest to top 5 rankings",
         "Improve content quality and comprehensiveness",
         "Build more relevant backlinks to target pages",
         "Optimize for user intent and search experience",
         "Monitor competitor strategies and adapt successful tactics"] }
  target :=
    { title := "Keyword Rankings On Track - Maintain Momentum",
      recommendations :=
        ["Continue current keyword optimization strategies",
         "Monitor rankings closely and defend positions",
         "Expand content around successful keywords",
         "Build authority through consistent, quality content"] }
  good :=
    { title := "Outstanding Keyword Performance - Expand Dominance",
      recommendations :=
        ["Target more competitive, high-value keywords",
         "Develop comprehensive topic clusters",
         "Build thought leadership around key topics",
         "Share keyword strategy insights with team"] }

/-- The `KPI_RECOMMENDATIONS` table as a string-keyed lookup
(`KPI_RECOMMENDATIONS[kpiName]`); `none` models an absent key. -/
def KPI_RECOMMENDATIONS (kpiName : String) : Option KPIRecs :=
  if kpiName = "outreaches" then some recs_outreaches
  else if kpiName = "live_links" then some recs_live_links
  else if kpiName = "high_da_links" then some recs_high_da_links
  else if kpiName = "content_distribution" then some recs_content_distribution
  else if kpiName = "new_blogs" then some recs_new_blogs
  else if kpiName = "blog_optimizations" then some recs_blog_optimizations
  else if kpiName = "top_5_keywords" then some recs_top_5_keywords
  else none

/-- `category.name.toLowerCase()`: character-wise lowercasing (the
category names are ASCII, where JavaScript `toLowerCase` is exactly the
character map). -/
def strToLower (s : String) : String := ⟨s.data.map Char.toLower⟩

/-- `ActionItem` of the action-items module (`severity` is the string
union `'critical' | 'warning' | 'info' | 'success'`). -/
structure ActionItem where
  id : String
  kpi : String
  severity : String
  title : String
  description : String
  recommendations : List String
  priority : ℤ
deriving DecidableEq

/-- The signed change-percentage fragment of the description template:
`${trend.changePercentage > 0 ? '+' : ''}${trend.changePercentage}`. -/
def signedChange (changePercentage : ℤ) : String :=
  (if changePercentage > 0 then "+" else "") ++ toString changePercentage

/-- The description template literal of `generateActionItems`:
`Current: ... | Target: ... | Achievement: ...% | Trend: ... (...%)`. -/
def mkDescription (currentValue monthlyTarget : ℤ) (achievementPercentage : JSInt)
    (trend : PerformanceTrend) : String :=
  "Current: " ++ toString currentValue ++
  " | Target: " ++ toString monthlyTarget ++
  " | Achievement: " ++ achievementPercentage.toStr ++
  "% | Trend: " ++ trend.trend.toStr ++
  " (" ++ signedChange trend.changePercentage ++ "%)"

/-- The `severity` switch of `generateActionItems` on `category.name`
(initial default `'info'`). -/
def severityFor (categoryName : String) : String :=
  if categoryName = "Critical" then "critical"
  else if categoryName = "Bad" then "warning"
  else if categoryName = "Target" then "info"
  else if categoryName = "Good" then "success"
  else "info"

/-- The `priority` switch of `generateActionItems` on `category.name`
(initial default `3`). -/
def basePriority (categoryName : String) : ℤ :=
  if categoryName = "Critical" then 1
  else if categoryName = "Bad" then 2
  else if categoryName = "Target" then 3
  else if categoryName = "Good" then 4
  else 3

/-- The trend adjustment of `generateActionItems`: a declining trend on a
non-Good category lowers priority by one, floored at 1
(`priority = Math.max(1, priority - 1)`). -/
def adjustedPriority (trendDir : TrendDirection) (categoryName : String) : ℤ :=
  if trendDir = .declining ∧ categoryName ≠ "Good" then
    max 1 (basePriority categoryName - 1)
  else basePriority categoryName

/-- The body of the `kpiNames.forEach` of `generateActionItems` for one
metric key: `none` when the iteration pushes no item (no matching target,
or — for a key outside the fixed seven — no recommendation entry). -/
def emitItem (currentRecord : PerformanceRecord)
    (previousRecords : List PerformanceRecord) (targets : List KPITarget)
    (kpiName : String) : Option ActionItem :=
  match targets.find? (fun t => t.kpi_name == kpiName) with
  | none => none
  | some target =>
    let currentValue := kpiValue currentRecord kpiName
    let achievementPercentage := jsAchievement currentValue target.monthly_target
    let category := getPerformanceCategory achievementPercentage
    let trend := analyzeTrend kpiName currentRecord previousRecords
    match KPI_RECOMMENDATIONS kpiName with
    | none => none
    | some kpiRecommendations =>
      match kpiRecommendations.cell (strToLower category.name) with
      | none => none
      | some categoryRecommendations =>
        some { id := kpiName ++ "-" ++ currentRecord.id,
               kpi := kpiName,
               severity := severityFor category.name,
               title := categoryRecommendations.title,
               description := mkDescription currentValue target.monthly_target
                 achievementPercentage trend,
               recommendations := categoryRecommendations.recommendations,
               priority := adjustedPriority trend.trend category.name }

/-- The list of items pushed by the `forEach` of `generateActionItems`,
in metric-iteration order, before the final sort. -/
def unsortedItems (currentRecord : PerformanceRecord)
    (previousRecords : List PerformanceRecord) (targets : List KPITarget) :
    List ActionItem :=
  kpiNames.filterMap (emitItem currentRecord previousRecords targets)

/-- Ascending-priority order of the final sort
`actionItems.sort((a, b) => a.priority - b.priority)`. -/
def prioLE (a b : ActionItem) : Prop := a.priority ≤ b.priority

instance : DecidableRel prioLE :=
  fun a b => inferInstanceAs (Decidable (a.priority ≤ b.priority))

instance : IsTotal ActionItem prioLE :=
  ⟨fun a b => le_total a.priority b.priority⟩

instance : IsTrans ActionItem prioLE :=
  ⟨fun _x _y _z h h' => le_trans h h'⟩

/-- `generateActionItems` of the action-items module.  `Array.prototype.sort`
is stable, and a stable sort for a total preorder is unique, so the
stable insertion sort computes the same final list. -/
def generateActionItems (currentRecord : PerformanceRecord)
    (previousRecords : List PerformanceRecord) (targets : List KPITarget) :
    List ActionItem :=
  (unsortedItems currentRecord previousRecords targets).insertionSort prioLE

/-- Annual-report target lookup of `Dashboard.tsx` (line 726): by metric
key AND the member's role (`t.role === analyst.department`). -/
def annualTargetFor (targets : List KPITarget) (department : String)
    (kpiName : String) : Option KPITarget :=
  targets.find? (fun t => t.kpi_name == kpiName && t.role == department)

/-- The `totalPerformance` reduce of the annual report: the sum of one
metric's counter over the year's records. -/
def totalPerformance (records : List PerformanceRecord) (kpiName : String) : ℤ :=
  (records.map (fun r => kpiValue r kpiName)).sum

/-- One element of the annual report's `kpiPerformances` array. -/
structure KPIPerformance where
  kpi : String
  achievement : ℤ
  target : ℤ
  actual : ℤ
deriving DecidableEq

/-- The `kpiPerformances` computation of the annual report
(`Dashboard.tsx` lines 725–735): role-aware target lookup, guarded by
`annual_target > 0`, achievement `Math.round(total / annual_target * 100)`;
the `map` returning `null` plus `filter(Boolean)` is a `filterMap`. -/
def annualKpiPerformances (records : List PerformanceRecord)
    (targets : List KPITarget) (department : String) : List KPIPerformance :=
  kpiNames.filterMap (fun kpiName =>
    match annualTargetFor targets department kpiName with
    | some target =>
        if target.annual_target > 0 then
          some { kpi := kpiName,
                 achievement := jsRoundDiv (100 * totalPerformance records kpiName)
                   target.annual_target,
                 target := target.annual_target,
                 actual := totalPerformance records kpiName }
        else none
    | none => none)

/-- The annual report's `averagePerformance`
(`validKPIs > 0 ? Math.round(totalAchievement / validKPIs) : 0`). -/
def averagePerformance (records : List PerformanceRecord)
    (targets : List KPITarget) (department : String) : ℤ :=
  let ps := annualKpiPerformances records targets department
  if ps.length > 0 then
    jsRoundDiv ((ps.map KPIPerformance.achievement).sum) ps.length
  else 0

/-- Whether the pair (record, `k`) is counted by `getPerformanceCategoryStats`:
the first target matching `k` exists and has a positive `monthly_target`
(independent of the record). -/
def countedKpi (targets : List KPITarget) (k : String) : Bool :=
  match targets.find? (fun t => t.kpi_name == k) with
  | some target => target.monthly_target > 0
  | none => false

/-- Two targets that agree on everything except possibly `role`. -/
def sameButRole (t t' : KPITarget) : Prop :=
  t.id = t'.id ∧ t.kpi_name = t'.kpi_name ∧ t.monthly_target = t'.monthly_target
    ∧ t.annual_target = t'.annual_target

/-- Two target lists that agree element-wise except possibly in `role`. -/
def targetsAgreeExceptRole (ts ts' : List KPITarget) : Prop :=
  List.Forall₂ sameButRole ts ts'

/-- A concrete performance record used in witnesses and counterexamples. -/
def exRecord (idStr analystStr : String) (m y v : ℤ) : PerformanceRecord :=
  { id := idStr, analyst_id := analystStr, month := m, year := y,
    outreaches := v, live_links := 0, high_da_links := 0,
    content_distribution := 0, new_blogs := 0, blog_optimizations := 0,
    top_5_keywords := 0 }

/-- A concrete target used in witnesses and counterexamples. -/
def exTarget (idStr kpiStr : String) (mt at_ : ℤ) (roleStr : String) : KPITarget :=
  { id := idStr, kpi_name := kpiStr, monthly_target := mt,
    annual_target := at_, role := roleStr }

/-- The single action item generated for a 400/525 outreaches record with
no history (achievement 76 → Bad → warning/2; no-history trend is
improving/+100). -/
def exWarningItem : ActionItem :=
  { id := "outreaches-r1", kpi := "outreaches", severity := "warning",
    title := recs_outreaches.bad.title,
    description := "Current: 400 | Target: 525 | Achievement: 76% | Trend: improving (+100%)",
    recommendations := recs_outreaches.bad.recommendations,
    priority := 2 }

/-! ### Helper lemmas -/

theorem jsRoundDiv_eq (num den : ℤ) (h : den ≠ 0) :
    jsRoundDiv num den = jsRound ((num : ℚ) / (den : ℚ)) := by
  unfold jsRoundDiv jsRound
  rcases lt_or_gt_of_ne h with hneg | hpos
  · have hd : ¬ (0 ≤ 2 * den) := by omega
    rw [if_neg hd]
    have hnat : (((-(2 * den)).toNat : ℤ)) = -(2 * den) := Int.toNat_of_nonneg (by omega)
    have hdq : (den : ℚ) ≠ 0 := Int.cast_ne_zero.mpr h
    have key : (num : ℚ) / (den : ℚ) + 1/2
        = ((-(2 * num + den) : ℤ) : ℚ) / (((-(2 * den)).toNat : ℕ) : ℚ) := by
      have hcast : (((-(2 * den)).toNat : ℕ) : ℚ) = ((-(2 * den) : ℤ) : ℚ) := by
        exact_mod_cast congrArg (fun z : ℤ => (z : ℚ)) hnat
      rw [hcast]
      push_cast
      field_simp
      ring
    rw [key, Rat.floor_intCast_div_natCast, hnat]
  · have hd : (0 ≤ 2 * den) := by omega
    rw [if_pos hd]
    have hnat : (((2 * den).toNat : ℤ)) = 2 * den := Int.toNat_of_nonneg (by omega)
    have hdq : (den : ℚ) ≠ 0 := Int.cast_ne_zero.mpr h
    have key : (num : ℚ) / (den : ℚ) + 1/2
        = ((2 * num + den : ℤ) : ℚ) / (((2 * den).toNat : ℕ) : ℚ) := by
      have hcast : (((2 * den).toNat : ℕ) : ℚ) = ((2 * den : ℤ) : ℚ) := by
        exact_mod_cast congrArg (fun z : ℤ => (z : ℚ)) hnat
      rw [hcast]
      push_cast
      field_simp
      ring
    rw [key, Rat.floor_intCast_div_natCast, hnat]

theorem getPerformanceCategory_cases (x : JSInt) :
    getPerformanceCategory x = criticalCategory ∨ getPerformanceCategory x = badCategory
    ∨ getPerformanceCategory x = targetCategory ∨ getPerformanceCategory x = goodCategory := by
  unfold getPerformanceCategory
  split_ifs <;> simp

theorem cell_of_category_isSome (recs : KPIRecs) (x : JSInt) :
    ∃ cell, recs.cell (strToLower (getPerformanceCategory x).name) = some cell := by
  rcases getPerformanceCategory_cases x with h | h | h | h <;> rw [h] <;> exact ⟨_, rfl⟩

theorem filter_orderedInsert {α : Type} (r : α → α → Prop) [DecidableRel r]
    (q : α → Bool) (hq : ∀ x y, q x = true → q y = true → r x y) (a : α) :
    ∀ l : List α,
      (l.orderedInsert r a).filter q = if q a then a :: l.filter q else l.filter q
  | [] => by
    cases hqa : q a <;> simp [List.orderedInsert, hqa]
  | b :: t => by
    rw [List.orderedInsert]
    by_cases hr : r a b
    · rw [if_pos hr]
      cases hqa : q a <;> simp [List.filter_cons, hqa]
    · rw [if_neg hr]
      cases hqa : q a
      · cases hqb : q b <;>
          simp [List.filter_cons, hqa, hqb, filter_orderedInsert r q hq a t]
      · cases hqb : q b
        · simp [List.filter_cons, hqa, hqb, filter_orderedInsert r q hq a t]
        · exact absurd (hq a b hqa hqb) hr

theorem filter_insertionSort {α : Type} (r : α → α → Prop) [DecidableRel r]
    (q : α → Bool) (hq : ∀ x y, q x = true → q y = true → r x y) :
    ∀ l : List α, (l.insertionSort r).filter q = l.filter q
  | [] => rfl
  | a :: t => by
    rw [List.insertionSort, filter_orderedInsert r q hq a, List.filter_cons,
      filter_insertionSort r q hq t]

theorem mem_generateActionItems {cur : PerformanceRecord}
    {prev : List PerformanceRecord} {targets : List KPITarget} {it : ActionItem} :
    it ∈ generateActionItems cur prev targets
      ↔ ∃ k ∈ kpiNames, emitItem cur prev targets k = some it := by
  unfold generateActionItems unsortedItems
  rw [List.mem_insertionSort, List.mem_filterMap]

theorem emitItem_some_elim {cur : PerformanceRecord} {prev : List PerformanceRecord}
    {targets : List KPITarget} {k : String} {it : ActionItem}
    (h : emitItem cur prev targets k = some it) :
    ∃ target recs cell,
      targets.find? (fun t => t.kpi_name == k) = some target ∧
      KPI_RECOMMENDATIONS k = some recs ∧
      recs.cell (strToLower (getPerformanceCategory
        (jsAchievement (kpiValue cur k) target.monthly_target)).name) = some cell ∧
      it = { id := k ++ "-" ++ cur.id,
             kpi := k,
             severity := severityFor (getPerformanceCategory
               (jsAchievement (kpiValue cur k) target.monthly_target)).name,
             title := cell.title,
             description := mkDescription (kpiValue cur k) target.monthly_target
               (jsAchievement (kpiValue cur k) target.monthly_target)
               (analyzeTrend k cur prev),
             recommendations := cell.recommendations,
             priority := adjustedPriority (analyzeTrend k cur prev).trend
               (getPerformanceCategory
                 (jsAchievement (kpiValue cur k) target.monthly_target)).name } := by
  unfold emitItem at h
  split at h
  · exact absurd h (by simp)
  next target hfind =>
    split at h
    · exact absurd h (by simp)
    next recs hrecs =>
      dsimp only at h
      split at h
      · exact absurd h (by simp)
      next cell hcell =>
        exact ⟨target, recs, cell, hfind, hrecs, hcell, (Option.some_inj.mp h).symm⟩

theorem emitItem_some_intro {cur : PerformanceRecord} {prev : List PerformanceRecord}
    {targets : List KPITarget} {k : String} {target : KPITarget}
    (hk : k ∈ kpiNames)
    (hf : targets.find? (fun t => t.kpi_name == k) = some target) :
    ∃ it, emitItem cur prev targets k = some it ∧ it.kpi = k := by
  have hrecs : ∃ recs, KPI_RECOMMENDATIONS k = some recs := by
    simp only [kpiNames, List.mem_cons, List.not_mem_nil, or_false] at hk
    rcases hk with rfl | rfl | rfl | rfl | rfl | rfl | rfl <;> exact ⟨_, rfl⟩
  obtain ⟨recs, hr⟩ := hrecs
  obtain ⟨cell, hc⟩ := cell_of_category_isSome recs
    (jsAchievement (kpiValue cur k) target.monthly_target)
  refine ⟨{ id := k ++ "-" ++ cur.id,
            kpi := k,
            severity := severityFor (getPerformanceCategory
              (jsAchievement (kpiValue cur k) target.monthly_target)).name,
            title := cell.title,
            description := mkDescription (kpiValue cur k) target.monthly_target
              (jsAchievement (kpiValue cur k) target.monthly_target)
              (analyzeTrend k cur prev),
            recommendations := cell.recommendations,
            priority := adjustedPriority (analyzeTrend k cur prev).trend
              (getPerformanceCategory
                (jsAchievement (kpiValue cur k) target.monthly_target)).name }, ?_, rfl⟩
  unfold emitItem
  simp only [hf, hr, hc]

theorem bumpStats_getPerformanceCategory_total (s : CategoryStats) (x : JSInt) :
    (bumpStats s (getPerformanceCategory x)).total = s.total + 1
    ∧ (bumpStats s (getPerformanceCategory x)).critical
        + (bumpStats s (getPerformanceCategory x)).bad
        + (bumpStats s (getPerformanceCategory x)).target
        + (bumpStats s (getPerformanceCategory x)).good
      = s.critical + s.bad + s.target + s.good + 1 := by
  rcases getPerformanceCategory_cases x with h | h | h | h <;> rw [h] <;>
    simp [bumpStats, criticalCategory, badCategory, targetCategory, goodCategory] <;>
    omega

theorem statsForPair_total (targets : List KPITarget) (record : PerformanceRecord)
    (s : CategoryStats) (k : String) :
    (statsForPair targets record s k).total
      = s.total + (if countedKpi targets k then 1 else 0) := by
  unfold statsForPair countedKpi
  cases hf : targets.find? (fun t => t.kpi_name == k) with
  | none => simp
  | some target =>
    by_cases hm : target.monthly_target > 0
    · simp [hm, (bumpStats_getPerformanceCategory_total s
        (jsAchievement (kpiValue record k) target.monthly_target)).1]
    · simp [hm]

theorem statsForPair_inv (targets : List KPITarget) (record : PerformanceRecord)
    (s : CategoryStats) (k : String)
    (h : s.total = s.critical + s.bad + s.target + s.good) :
    (statsForPair targets record s k).total
      = (statsForPair targets record s k).critical
        + (statsForPair targets record s k).bad
        + (statsForPair targets record s k).target
        + (statsForPair targets record s k).good := by
  unfold statsForPair
  cases hf : targets.find? (fun t => t.kpi_name == k) with
  | none => exact h
  | some target =>
    by_cases hm : target.monthly_target > 0
    · have hb := bumpStats_getPerformanceCategory_total s
        (jsAchievement (kpiValue record k) target.monthly_target)
      simp only [hm, if_pos]
      omega
    · simp [hm, h]

theorem foldl_statsForPair_total (targets : List KPITarget)
    (record : PerformanceRecord) :
    ∀ (l : List String) (s : CategoryStats),
      (l.foldl (statsForPair targets record) s).total
        = s.total + l.countP (countedKpi targets)
  | [], s => by simp
  | k :: t, s => by
    rw [List.foldl_cons, foldl_statsForPair_total targets record t,
      statsForPair_total, List.countP_cons]
    cases h : countedKpi targets k
    · simp [h]
    · simp [h]
      omega

theorem foldl_statsForPair_inv (targets : List KPITarget)
    (record : PerformanceRecord) :
    ∀ (l : List String) (s : CategoryStats),
      s.total = s.critical + s.bad + s.target + s.good →
      (l.foldl (statsForPair targets record) s).total
        = (l.foldl (statsForPair targets record) s).critical
          + (l.foldl (statsForPair targets record) s).bad
          + (l.foldl (statsForPair targets record) s).target
          + (l.foldl (statsForPair targets record) s).good
  | [], s, h => h
  | k :: t, s, h => by
    rw [List.foldl_cons]
    exact foldl_statsForPair_inv targets record t _
      (statsForPair_inv targets record s k h)

theorem head_sortPreviousDesc {l : List PerformanceRecord} {p : PerformanceRecord}
    (hp : p ∈ l) (hmax : ∀ r ∈ l, dateKey r ≤ dateKey p)
    (huniq : ∀ r ∈ l, dateKey r = dateKey p → r = p) :
    (sortPreviousDesc l).head? = some p := by
  unfold sortPreviousDesc
  have hperm := List.perm_insertionSort dateGE l
  have hne : l.insertionSort dateGE ≠ [] := by
    intro hnil
    have hmem : p ∈ l.insertionSort dateGE := hperm.mem_iff.mpr hp
    rw [hnil] at hmem
    exact absurd hmem (List.not_mem_nil p)
  obtain ⟨h, t, hht⟩ := List.exists_cons_of_ne_nil hne
  have hsorted : List.Sorted dateGE (l.insertionSort dateGE) :=
    List.sorted_insertionSort dateGE l
  have hhl : h ∈ l := hperm.mem_iff.mp (by rw [hht]; exact List.mem_cons_self h t)
  have hple : dateKey h ≤ dateKey p := hmax h hhl
  have hpmem : p ∈ l.insertionSort dateGE := hperm.mem_iff.mpr hp
  rw [hht] at hpmem hsorted
  have hhp : h = p := by
    rcases List.mem_cons.mp hpmem with heq | htail
    · exact heq.symm
    · have : dateGE h p := (List.sorted_cons.mp hsorted).1 p htail
      exact huniq h hhl (le_antisymm hple this)
  rw [hht, hhp]
  rfl

theorem find?_targetsAgreeExceptRole {ts ts' : List KPITarget}
    (h : targetsAgreeExceptRole ts ts') (k : String) :
    Option.Rel sameButRole (ts.find? (fun t => t.kpi_name == k))
      (ts'.find? (fun t => t.kpi_name == k)) := by
  induction h with
  | nil => exact Option.Rel.none
  | cons hrel _ ih =>
    rename_i t t' l l' _
    have hname : t.kpi_name = t'.kpi_name := hrel.2.1
    cases hb : (t.kpi_name == k) with
    | true =>
      have hb' : (t'.kpi_name == k) = true := by rw [← hname]; exact hb
      simp only [List.find?_cons, hb, hb']
      exact Option.Rel.some hrel
    | false =>
      have hb' : (t'.kpi_name == k) = false := by rw [← hname]; exact hb
      simp only [List.find?_cons, hb, hb']
      exact ih

theorem emitItem_role_irrelevant {cur : PerformanceRecord}
    {prev : List PerformanceRecord} {ts ts' : List KPITarget}
    (h : targetsAgreeExceptRole ts ts') (k : String) :
    emitItem cur prev ts k = emitItem cur prev ts' k := by
  have hrel := find?_targetsAgreeExceptRole h k
  unfold emitItem
  cases hf : ts.find? (fun t => t.kpi_name == k) with
  | none =>
    cases hf' : ts'.find? (fun t => t.kpi_name == k) with
    | none => rfl
    | some t' => rw [hf, hf'] at hrel; cases hrel
  | some t =>
    cases hf' : ts'.find? (fun t => t.kpi_name == k) with
    | none => rw [hf, hf'] at hrel; cases hrel
    | some t' =>
      rw [hf, hf'] at hrel
      cases hrel with
      | some hs => simp only [hs.2.2.1]

theorem map_kpi_filterMap_sublist (cur : PerformanceRecord)
    (prev : List PerformanceRecord) (targets : List KPITarget) :
    ∀ l : List String,
      ((l.filterMap (emitItem cur prev targets)).map ActionItem.kpi).Sublist l
  | [] => by simp
  | k :: t => by
    rw [List.filterMap_cons]
    cases he : emitItem cur prev targets k with
    | none => exact (map_kpi_filterMap_sublist cur prev targets t).cons k
    | some it =>
      rw [List.map_cons]
      have hkpi : it.kpi = k := by
        obtain ⟨_, _, _, _, _, _, hit⟩ := emitItem_some_elim he
        rw [hit]
      rw [hkpi]
      exact (map_kpi_filterMap_sublist cur prev targets t).cons₂ k

/-! ### Claim theorems -/

/-- C1: `getPerformanceCategory` is total over all integer achievement
percentages and partitions ℤ into the four bands: Critical iff `p ≤ 66`,
Bad iff `67 ≤ p ≤ 83`, Target iff `84 ≤ p ≤ 119`, Good iff `120 ≤ p`
(so exactly one band matches each integer); with the stated boundary
values, and every negative integer classified (as Critical). -/
theorem classifier_band_partition :
    (∀ p : ℤ,
      (getPerformanceCategory (.int p) = criticalCategory ↔ p ≤ 66)
      ∧ (getPerformanceCategory (.int p) = badCategory ↔ 67 ≤ p ∧ p ≤ 83)
      ∧ (getPerformanceCategory (.int p) = targetCategory ↔ 84 ≤ p ∧ p ≤ 119)
      ∧ (getPerformanceCategory (.int p) = goodCategory ↔ 120 ≤ p))
    ∧ getPerformanceCategory (.int 66) = criticalCategory
    ∧ getPerformanceCategory (.int 67) = badCategory
    ∧ getPerformanceCategory (.int 83) = badCategory
    ∧ getPerformanceCategory (.int 84) = targetCategory
    ∧ getPerformanceCategory (.int 119) = targetCategory
    ∧ getPerformanceCategory (.int 120) = goodCategory
    ∧ getPerformanceCategory (.int 0) = criticalCategory
    ∧ getPerformanceCategory (.int 1000) = goodCategory
    ∧ ∀ p : ℤ, p < 0 → getPerformanceCategory (.int p) = criticalCategory := by
  have hbands : ∀ p : ℤ,
      (getPerformanceCategory (.int p) = criticalCategory ↔ p ≤ 66)
      ∧ (getPerformanceCategory (.int p) = badCategory ↔ 67 ≤ p ∧ p ≤ 83)
      ∧ (getPerformanceCategory (.int p) = targetCategory ↔ 84 ≤ p ∧ p ≤ 119)
      ∧ (getPerformanceCategory (.int p) = goodCategory ↔ 120 ≤ p) := by
    intro p
    by_cases h1 : p ≤ 66
    · have e : getPerformanceCategory (.int p) = criticalCategory := by
        simp [getPerformanceCategory, JSInt.le, h1]
      rw [e]
      exact ⟨iff_of_true rfl h1, iff_of_false (by decide) (by omega),
        iff_of_false (by decide) (by omega), iff_of_false (by decide) (by omega)⟩
    · by_cases h2 : p ≤ 83
      · have e : getPerformanceCategory (.int p) = badCategory := by
          simp [getPerformanceCategory, JSInt.le, h1, h2]
        rw [e]
        exact ⟨iff_of_false (by decide) (by omega), iff_of_true rfl (by omega),
          iff_of_false (by decide) (by omega), iff_of_false (by decide) (by omega)⟩
      · by_cases h3 : p ≤ 119
        · have e : getPerformanceCategory (.int p) = targetCategory := by
            simp [getPerformanceCategory, JSInt.le, h1, h2, h3]
          rw [e]
          exact ⟨iff_of_false (by decide) (by omega), iff_of_false (by decide) (by omega),
            iff_of_true rfl (by omega), iff_of_false (by decide) (by omega)⟩
        · have e : getPerformanceCategory (.int p) = goodCategory := by
            simp [getPerformanceCategory, JSInt.le, h1, h2, h3]
          rw [e]
          exact ⟨iff_of_false (by decide) (by omega), iff_of_false (by decide) (by omega),
            iff_of_false (by decide) (by omega), iff_of_true rfl (by omega)⟩
  refine ⟨hbands, by decide, by decide, by decide, by decide, by decide, by decide,
    by decide, by decide, fun p hp => (hbands p).1.mpr (by omega)⟩

/-- C1 witness: instantiation of the negative-integer clause at `p = -5`. -/
theorem classifier_band_partition_witness :
    (-5 : ℤ) < 0 ∧ getPerformanceCategory (.int (-5)) = criticalCategory :=
  ⟨by decide, classifier_band_partition.2.2.2.2.2.2.2.2.2 (-5) (by decide)⟩

/-- C10: for every list of records and targets the stats object satisfies
`total = critical + bad + target + good` (every counted pair lands in
exactly one bucket; all counters are naturals, hence non-negative). -/
theorem stats_total_eq_bucket_sum (records : List PerformanceRecord)
    (targets : List KPITarget) :
    (getPerformanceCategoryStats records targets).total
      = (getPerformanceCategoryStats records targets).critical
        + (getPerformanceCategoryStats records targets).bad
        + (getPerformanceCategoryStats records targets).target
        + (getPerformanceCategoryStats records targets).good := by
  have main : ∀ (rs : List PerformanceRecord) (s0 : CategoryStats),
      s0.total = s0.critical + s0.bad + s0.target + s0.good →
      (rs.foldl (fun s record => kpiNames.foldl (statsForPair targets record) s) s0).total
        = (rs.foldl (fun s record => kpiNames.foldl (statsForPair targets record) s) s0).critical
          + (rs.foldl (fun s record => kpiNames.foldl (statsForPair targets record) s) s0).bad
          + (rs.foldl (fun s record => kpiNames.foldl (statsForPair targets record) s) s0).target
          + (rs.foldl (fun s record => kpiNames.foldl (statsForPair targets record) s) s0).good := by
    intro rs
    induction rs with
    | nil => intro s0 h; exact h
    | cons r t ih =>
      intro s0 h
      rw [List.foldl_cons]
      exact ih _ (foldl_statsForPair_inv targets r kpiNames s0 h)
  exact main records _ rfl

/-- C6 (counterexample): `analyzeTrend` does NOT exclude `currentRecord`
from the history.  With the current record itself present in
`historicalRecords`, it is selected as the "previous" record (being the
latest), producing stable/0; removing it produces improving/100. -/
theorem analyzeTrend_self_exclusion_counterexample :
    analyzeTrend "outreaches" (exRecord "r1" "a1" 2 2025 10)
        [exRecord "r1" "a1" 2 2025 10]
      ≠ analyzeTrend "outreaches" (exRecord "r1" "a1" 2 2025 10) [] := by decide

/-- C6 (amended): `analyzeTrend` considers only historical records of the
same member — its result is unchanged when the history is restricted to
records with the member's `analyst_id` — but it does not exclude
`currentRecord` itself from that history. -/
theorem analyzeTrend_same_member_only (kpiName : String)
    (currentRecord : PerformanceRecord) (previousRecords : List PerformanceRecord) :
    analyzeTrend kpiName currentRecord previousRecords
      = analyzeTrend kpiName currentRecord
          (previousRecords.filter (fun r => r.analyst_id == currentRecord.analyst_id)) := by
  unfold analyzeTrend
  rw [List.filter_filter]
  simp only [Bool.and_self]

/-- C5 (counterexample): with the only target having `monthly_target = 0`,
`generateActionItems` still emits an action item for that metric (the
zero-division achievement is `Infinity`, classified Good, severity
`success`), contradicting the claim that no item is produced. -/
theorem zero_target_actionItem_counterexample :
    ([exTarget "t1" "outreaches" 0 0 "SEO Analyst"].all
        (fun t => t.monthly_target == 0)) = true
    ∧ (generateActionItems (exRecord "r1" "a1" 9 2025 10) []
        [exTarget "t1" "outreaches" 0 0 "SEO Analyst"]).map ActionItem.kpi
      = ["outreaches"]
    ∧ (generateActionItems (exRecord "r1" "a1" 9 2025 10) []
        [exTarget "t1" "outreaches" 0 0 "SEO Analyst"]).map ActionItem.severity
      = ["success"] := by decide

/-- C5 (amended): a `monthly_target = 0` pair is excluded from
`getPerformanceCategoryStats` — its `total` counts, per record, exactly
the metrics whose first matching target has a positive `monthly_target` —
but `generateActionItems` does NOT skip such a metric: whenever a target
is found for a known metric key, even with `monthly_target = 0`, an
action item for that metric is emitted. -/
theorem zero_target_stats_vs_actionItems :
    (∀ (records : List PerformanceRecord) (targets : List KPITarget),
      (getPerformanceCategoryStats records targets).total
        = records.length * kpiNames.countP (countedKpi targets))
    ∧ (∀ (cur : PerformanceRecord) (prev : List PerformanceRecord)
        (targets : List KPITarget) (k : String) (target : KPITarget),
        k ∈ kpiNames →
        targets.find? (fun t => t.kpi_name == k) = some target →
        target.monthly_target = 0 →
        ∃ it ∈ generateActionItems cur prev targets, it.kpi = k) := by
  constructor
  · intro records targets
    unfold getPerformanceCategoryStats
    have shift : ∀ (rs : List PerformanceRecord) (s0 : CategoryStats),
        (rs.foldl (fun s record =>
          kpiNames.foldl (statsForPair targets record) s) s0).total
          = s0.total + rs.length * kpiNames.countP (countedKpi targets) := by
      intro rs
      induction rs with
      | nil => intro s0; simp
      | cons r' t' ih' =>
        intro s0
        rw [List.foldl_cons, ih', foldl_statsForPair_total, List.length_cons]
        ring
    rw [shift]
    simp
  · intro cur prev targets k target hk hf hzero
    obtain ⟨it, he, hkpi⟩ := emitItem_some_intro hk hf
    exact ⟨it, mem_generateActionItems.mpr ⟨k, hk, he⟩, hkpi⟩

/-- C5 witness: instantiation at one record, the zero target list of the
counterexample, and `k = "outreaches"`. -/
theorem zero_target_stats_vs_actionItems_witness :
    ∃ it ∈ generateActionItems (exRecord "r1" "a1" 9 2025 10) []
        [exTarget "t1" "outreaches" 0 0 "SEO Analyst"], it.kpi = "outreaches" :=
  zero_target_stats_vs_actionItems.2 (exRecord "r1" "a1" 9 2025 10) []
    [exTarget "t1" "outreaches" 0 0 "SEO Analyst"] "outreaches"
    (exTarget "t1" "outreaches" 0 0 "SEO Analyst")
    (by decide) (by decide) (by decide)

/-- C4: `generateActionItems` returns the pushed items stably sorted by
ascending priority: the output is pairwise `≤` on priority (so every
priority-1 item precedes every higher-priority item), items of any equal
priority appear exactly as in the pre-sort push order, and the pre-sort
push order follows the fixed 7-metric iteration order (its kpi sequence
is a subsequence of `kpiNames`). -/
theorem generateActionItems_sorted_stable (cur : PerformanceRecord)
    (prev : List PerformanceRecord) (targets : List KPITarget) :
    (generateActionItems cur prev targets).Pairwise prioLE
    ∧ (∀ p : ℤ,
        (generateActionItems cur prev targets).filter (fun it => it.priority == p)
          = (unsortedItems cur prev targets).filter (fun it => it.priority == p))
    ∧ ((unsortedItems cur prev targets).map ActionItem.kpi).Sublist kpiNames := by
  refine ⟨List.sorted_insertionSort prioLE (unsortedItems cur prev targets), ?_, ?_⟩
  · intro p
    exact filter_insertionSort prioLE (fun it => it.priority == p)
      (fun x y hx hy => by
        have hx' : x.priority = p := by exact_mod_cast eq_of_beq hx
        have hy' : y.priority = p := by exact_mod_cast eq_of_beq hy
        exact le_of_eq (hx'.trans hy'.symm))
      (unsortedItems cur prev targets)
  · exact map_kpi_filterMap_sublist cur prev targets kpiNames

/-- C2: every emitted action item's severity and priority are determined
by the metric's category — Critical: `critical`/1, Bad: `warning`/2,
Target: `info`/3, Good: `success`/4 — and a declining trend on a non-Good
category lowers the priority by one, floored at 1, while a declining
Good-band metric keeps priority 4. -/
theorem actionItem_severity_priority (cur : PerformanceRecord)
    (prev : List PerformanceRecord) (targets : List KPITarget)
    (it : ActionItem) (hmem : it ∈ generateActionItems cur prev targets) :
    ∃ target,
      targets.find? (fun t => t.kpi_name == it.kpi) = some target ∧
      let cat := getPerformanceCategory
        (jsAchievement (kpiValue cur it.kpi) target.monthly_target)
      let tr := analyzeTrend it.kpi cur prev
      let base : ℤ := if cat = criticalCategory then 1
        else if cat = badCategory then 2
        else if cat = targetCategory then 3 else 4
      it.severity = (if cat = criticalCategory then "critical"
        else if cat = badCategory then "warning"
        else if cat = targetCategory then "info" else "success")
      ∧ it.priority = (if tr.trend = .declining ∧ cat ≠ goodCategory
          then max 1 (base - 1) else base)
      ∧ (cat = goodCategory ∧ tr.trend = .declining → it.priority = 4) := by
  obtain ⟨k, hk, he⟩ := mem_generateActionItems.mp hmem
  obtain ⟨target, recs, cell, hf, hr, hc, hit⟩ := emitItem_some_elim he
  subst hit
  refine ⟨target, hf, ?_⟩
  rcases getPerformanceCategory_cases
      (jsAchievement (kpiValue cur k) target.monthly_target) with h4 | h4 | h4 | h4 <;>
    by_cases hd : (analyzeTrend k cur prev).trend = .declining <;>
    simp only [h4, hd] <;>
    simp [severityFor, adjustedPriority, basePriority, hd,
      criticalCategory, badCategory, targetCategory, goodCategory]

/-- C2 witness: instantiation at a concrete Bad-band record. -/
theorem actionItem_severity_priority_witness :
    ∃ target,
      [exTarget "t1" "outreaches" 525 6825 "SEO Analyst"].find?
          (fun t => t.kpi_name == exWarningItem.kpi) = some target ∧
      let cat := getPerformanceCategory
        (jsAchievement (kpiValue (exRecord "r1" "a1" 9 2025 400) exWarningItem.kpi)
          target.monthly_target)
      let tr := analyzeTrend exWarningItem.kpi (exRecord "r1" "a1" 9 2025 400) []
      let base : ℤ := if cat = criticalCategory then 1
        else if cat = badCategory then 2
        else if cat = targetCategory then 3 else 4
      exWarningItem.severity = (if cat = criticalCategory then "critical"
        else if cat = badCategory then "warning"
        else if cat = targetCategory then "info" else "success")
      ∧ exWarningItem.priority = (if tr.trend = .declining ∧ cat ≠ goodCategory
          then max 1 (base - 1) else base)
      ∧ (cat = goodCategory ∧ tr.trend = .declining → exWarningItem.priority = 4) :=
  actionItem_severity_priority (exRecord "r1" "a1" 9 2025 400) []
    [exTarget "t1" "outreaches" 525 6825 "SEO Analyst"] exWarningItem (by decide)

/-- C7 (counterexample): a change percentage of 0 — a non-negative value —
is rendered without the claimed explicit `+` sign: the description embeds
`(0%)`, not `(+0%)`. -/
theorem description_plus_sign_counterexample :
    (analyzeTrend "outreaches" (exRecord "c1" "a1" 2 2025 100)
        [exRecord "p1" "a1" 1 2025 100]).changePercentage = 0
    ∧ (generateActionItems (exRecord "c1" "a1" 2 2025 100)
        [exRecord "p1" "a1" 1 2025 100]
        [exTarget "t1" "outreaches" 100 1300 "SEO Analyst"]).map ActionItem.description
      = ["Current: 100 | Target: 100 | Achievement: 100% | Trend: stable (0%)"]
    ∧ ¬ ("+0".data <:+:
        ("Current: 100 | Target: 100 | Achievement: 100% | Trend: stable (0%)").data) := by
  decide

/-- C7 (amended): in every emitted description the change percentage is
rendered by `signedChange`, which prefixes `+` exactly for strictly
positive values; zero and negative values are rendered as the plain
integer (`0%`, `-8%`). -/
theorem description_sign_convention :
    (∀ cp : ℤ, (0 < cp → signedChange cp = "+" ++ toString cp)
      ∧ (cp ≤ 0 → signedChange cp = toString cp))
    ∧ (∀ (cur : PerformanceRecord) (prev : List PerformanceRecord)
        (targets : List KPITarget) (it : ActionItem),
        it ∈ generateActionItems cur prev targets →
        ∃ target, targets.find? (fun t => t.kpi_name == it.kpi) = some target ∧
          it.description = mkDescription (kpiValue cur it.kpi) target.monthly_target
            (jsAchievement (kpiValue cur it.kpi) target.monthly_target)
            (analyzeTrend it.kpi cur prev)) := by
  constructor
  · intro cp
    constructor
    · intro hpos
      unfold signedChange
      rw [if_pos hpos]
    · intro hnonpos
      unfold signedChange
      rw [if_neg (by omega)]
      simp
  · intro cur prev targets it hmem
    obtain ⟨k, hk, he⟩ := mem_generateActionItems.mp hmem
    obtain ⟨target, recs, cell, hf, hr, hc, hit⟩ := emitItem_some_elim he
    subst hit
    exact ⟨target, hf, rfl⟩

/-- C7 witness: the sign convention at `cp = 12`, `cp = 0` and the
description shape on the counterexample run. -/
theorem description_sign_convention_witness :
    (signedChange 12 = "+" ++ toString (12 : ℤ)
      ∧ signedChange 0 = toString (0 : ℤ))
    ∧ ∃ target, ([exTarget "t1" "outreaches" 525 6825 "SEO Analyst"].find?
          (fun t => t.kpi_name == exWarningItem.kpi)) = some target ∧
        exWarningItem.description = mkDescription
          (kpiValue (exRecord "r1" "a1" 9 2025 400) exWarningItem.kpi)
          target.monthly_target
          (jsAchievement (kpiValue (exRecord "r1" "a1" 9 2025 400) exWarningItem.kpi)
            target.monthly_target)
          (analyzeTrend exWarningItem.kpi (exRecord "r1" "a1" 9 2025 400) []) :=
  ⟨⟨(description_sign_convention.1 12).1 (by decide),
    (description_sign_convention.1 0).2 (by decide)⟩,
   description_sign_convention.2 (exRecord "r1" "a1" 9 2025 400) []
     [exTarget "t1" "outreaches" 525 6825 "SEO Analyst"] exWarningItem (by decide)⟩

/-- C8: `generateActionItems` is a total function (the embedding returns a
plain list for every input) and, over the seven known metric keys, a
metric with no matching target contributes no item at all — no partial
item appears — while every metric that does have a matching target (the
shipped recommendation table has a cell for each of its classified
categories) still contributes an item. -/
theorem generateActionItems_lookup_totality (cur : PerformanceRecord)
    (prev : List PerformanceRecord) (targets : List KPITarget) :
    (∀ it ∈ generateActionItems cur prev targets, it.kpi ∈ kpiNames)
    ∧ ∀ k ∈ kpiNames,
        (targets.find? (fun t => t.kpi_name == k) = none →
          ∀ it ∈ generateActionItems cur prev targets, it.kpi ≠ k)
        ∧ (∀ target, targets.find? (fun t => t.kpi_name == k) = some target →
            ∃ it ∈ generateActionItems cur prev targets, it.kpi = k) := by
  constructor
  · intro it hmem
    obtain ⟨k, hk, he⟩ := mem_generateActionItems.mp hmem
    obtain ⟨target, recs, cell, _, _, _, hit⟩ := emitItem_some_elim he
    rw [hit]
    exact hk
  · intro k hk
    constructor
    · intro hnone it hmem hkpi
      obtain ⟨k', hk', he'⟩ := mem_generateActionItems.mp hmem
      obtain ⟨target, recs, cell, hf', _, _, hit⟩ := emitItem_some_elim he'
      have : k' = k := by rw [hit] at hkpi; exact hkpi
      rw [this] at hf'
      rw [hnone] at hf'
      exact absurd hf' (by simp)
    · intro target hf
      obtain ⟨it, he, hkpi⟩ := emitItem_some_intro hk hf
      exact ⟨it, mem_generateActionItems.mpr ⟨k, hk, he⟩, hkpi⟩

/-- C8 witness: with a target list covering only `live_links`, no
`outreaches` item is emitted and a `live_links` item is. -/
theorem generateActionItems_lookup_totality_witness :
    (∀ it ∈ generateActionItems (exRecord "r1" "a1" 9 2025 400) []
        [exTarget "t2" "live_links" 10 130 "SEO Analyst"], it.kpi ≠ "outreaches")
    ∧ ∃ it ∈ generateActionItems (exRecord "r1" "a1" 9 2025 400) []
        [exTarget "t2" "live_links" 10 130 "SEO Analyst"], it.kpi = "live_links" :=
  ⟨((generateActionItems_lookup_totality (exRecord "r1" "a1" 9 2025 400) []
      [exTarget "t2" "live_links" 10 130 "SEO Analyst"]).2 "outreaches"
      (by decide)).1 (by decide),
   ((generateActionItems_lookup_totality (exRecord "r1" "a1" 9 2025 400) []
      [exTarget "t2" "live_links" 10 130 "SEO Analyst"]).2 "live_links"
      (by decide)).2 (exTarget "t2" "live_links" 10 130 "SEO Analyst") (by decide)⟩

/-- C9: the monthly action-item generator resolves targets by metric key
alone — two target lists differing only in their `role` fields produce
identical outputs — whereas the annual report resolves by metric key and
the member's role (department), so its result can differ between two such
lists (here: average 100 vs 0). -/
theorem monthly_role_agnostic_annual_role_sensitive :
    (∀ (cur : PerformanceRecord) (prev : List PerformanceRecord)
        (ts ts' : List KPITarget), targetsAgreeExceptRole ts ts' →
        generateActionItems cur prev ts = generateActionItems cur prev ts')
    ∧ targetsAgreeExceptRole
        [exTarget "t1" "outreaches" 10 130 "SEO Analyst"]
        [exTarget "t1" "outreaches" 10 130 "Link Builder"]
    ∧ averagePerformance [exRecord "r1" "a1" 9 2025 130]
        [exTarget "t1" "outreaches" 10 130 "SEO Analyst"] "SEO Analyst"
      ≠ averagePerformance [exRecord "r1" "a1" 9 2025 130]
        [exTarget "t1" "outreaches" 10 130 "Link Builder"] "SEO Analyst" := by
  refine ⟨?_, ?_, ?_⟩
  · intro cur prev ts ts' h
    unfold generateActionItems unsortedItems
    rw [funext (emitItem_role_irrelevant h)]
  · exact List.Forall₂.cons ⟨rfl, rfl, rfl, rfl⟩ List.Forall₂.nil
  · decide

/-- C9 witness: the role-agnostic half applied to the two concrete target
lists of the theorem's role-sensitive half. -/
theorem monthly_role_agnostic_witness :
    generateActionItems (exRecord "r1" "a1" 9 2025 130) []
        [exTarget "t1" "outreaches" 10 130 "SEO Analyst"]
      = generateActionItems (exRecord "r1" "a1" 9 2025 130) []
        [exTarget "t1" "outreaches" 10 130 "Link Builder"] :=
  monthly_role_agnostic_annual_role_sensitive.1
    (exRecord "r1" "a1" 9 2025 130) []
    [exTarget "t1" "outreaches" 10 130 "SEO Analyst"]
    [exTarget "t1" "outreaches" 10 130 "Link Builder"]
    (List.Forall₂.cons ⟨rfl, rfl, rfl, rfl⟩ List.Forall₂.nil)

theorem analyzeTrend_eq_of_head {k : String} {cur : PerformanceRecord}
    {hist : List PerformanceRecord} {p : PerformanceRecord}
    (h : (sortPreviousDesc
      (hist.filter (fun r => r.analyst_id == cur.analyst_id))).head? = some p) :
    analyzeTrend k cur hist =
      (if kpiValue p k > 0 then
        { kpi := k, current := kpiValue cur k, previous := kpiValue p k,
          trend :=
            if jsRoundDiv (100 * (kpiValue cur k - kpiValue p k)) (kpiValue p k) > 5
            then TrendDirection.improving
            else if jsRoundDiv (100 * (kpiValue cur k - kpiValue p k)) (kpiValue p k) < -5
            then TrendDirection.declining
            else TrendDirection.stable,
          changePercentage :=
            jsRoundDiv (100 * (kpiValue cur k - kpiValue p k)) (kpiValue p k) }
      else if kpiValue cur k > 0 then
        { kpi := k, current := kpiValue cur k, previous := kpiValue p k,
          trend := TrendDirection.improving, changePercentage := 100 }
      else
        { kpi := k, current := kpiValue cur k, previous := kpiValue p k,
          trend := TrendDirection.stable, changePercentage := 0 }) := by
  unfold analyzeTrend
  simp only [h]

theorem analyzeTrend_eq_of_no_head {k : String} {cur : PerformanceRecord}
    {hist : List PerformanceRecord}
    (h : (sortPreviousDesc
      (hist.filter (fun r => r.analyst_id == cur.analyst_id))).head? = none) :
    analyzeTrend k cur hist =
      (if kpiValue cur k > 0 then
        { kpi := k, current := kpiValue cur k, previous := 0,
          trend := TrendDirection.improving, changePercentage := 100 }
      else
        { kpi := k, current := kpiValue cur k, previous := 0,
          trend := TrendDirection.stable, changePercentage := 0 }) := by
  unfold analyzeTrend
  simp only [h]
  rw [if_neg (lt_irrefl 0)]

/-- C3: for `analyzeTrend` on a history not containing the current record,
where all of the member's historical records are chronologically prior and
dates are unique per member: if `p` is the member's latest prior record
and its metric value is positive, the change percentage is
`round((current − previous)/previous × 100)` and the direction is
improving above +5, declining below −5, and stable otherwise (±5 stable);
if the latest prior record's value is 0, or no same-member record exists,
the result defaults to improving/100 for a positive current value and
stable/0 otherwise. -/
theorem analyzeTrend_spec (k : String) (cur : PerformanceRecord)
    (hist : List PerformanceRecord) (_hk : k ∈ kpiNames)
    (_hnotmem : cur ∉ hist)
    (_hprior : ∀ r ∈ hist, r.analyst_id = cur.analyst_id → dateKey r < dateKey cur)
    (huniq : ∀ r ∈ hist, ∀ r' ∈ hist, r.analyst_id = cur.analyst_id →
      r'.analyst_id = cur.analyst_id → dateKey r = dateKey r' → r = r') :
    (∀ p ∈ hist, p.analyst_id = cur.analyst_id →
      (∀ r ∈ hist, r.analyst_id = cur.analyst_id → dateKey r ≤ dateKey p) →
      ((0 < kpiValue p k →
        (analyzeTrend k cur hist).changePercentage
          = jsRound (((kpiValue cur k : ℚ) - (kpiValue p k : ℚ))
              / (kpiValue p k : ℚ) * 100)
        ∧ (analyzeTrend k cur hist).trend
          = (if 5 < (analyzeTrend k cur hist).changePercentage
             then TrendDirection.improving
             else if (analyzeTrend k cur hist).changePercentage < -5
             then TrendDirection.declining
             else TrendDirection.stable))
      ∧ (kpiValue p k = 0 →
          (0 < kpiValue cur k →
            (analyzeTrend k cur hist).trend = TrendDirection.improving
            ∧ (analyzeTrend k cur hist).changePercentage = 100)
          ∧ (¬ 0 < kpiValue cur k →
            (analyzeTrend k cur hist).trend = TrendDirection.stable
            ∧ (analyzeTrend k cur hist).changePercentage = 0))))
    ∧ ((∀ r ∈ hist, ¬ r.analyst_id = cur.analyst_id) →
        (0 < kpiValue cur k →
          (analyzeTrend k cur hist).trend = TrendDirection.improving
          ∧ (analyzeTrend k cur hist).changePercentage = 100)
        ∧ (¬ 0 < kpiValue cur k →
          (analyzeTrend k cur hist).trend = TrendDirection.stable
          ∧ (analyzeTrend k cur hist).changePercentage = 0)) := by
  constructor
  · intro p hp hpid hmax
    have hpF : p ∈ hist.filter (fun r => r.analyst_id == cur.analyst_id) :=
      List.mem_filter.mpr ⟨hp, by simp [hpid]⟩
    have hmaxF : ∀ r ∈ hist.filter (fun r => r.analyst_id == cur.analyst_id),
        dateKey r ≤ dateKey p := by
      intro r hr
      have hr' := List.mem_filter.mp hr
      exact hmax r hr'.1 (by simpa using hr'.2)
    have huniqF : ∀ r ∈ hist.filter (fun r => r.analyst_id == cur.analyst_id),
        dateKey r = dateKey p → r = p := by
      intro r hr hdk
      have hr' := List.mem_filter.mp hr
      exact huniq r hr'.1 p hp (by simpa using hr'.2) hpid hdk
    have hhead := head_sortPreviousDesc hpF hmaxF huniqF
    have e := analyzeTrend_eq_of_head (k := k) hhead
    constructor
    · intro hppos
      rw [e, if_pos hppos]
      constructor
      · show jsRoundDiv (100 * (kpiValue cur k - kpiValue p k)) (kpiValue p k) = _
        rw [jsRoundDiv_eq _ _ (by omega : kpiValue p k ≠ 0)]
        unfold jsRound
        congr 1
        have hne : ((kpiValue p k : ℚ)) ≠ 0 := Int.cast_ne_zero.mpr (by omega)
        push_cast
        field_simp
        ring
      · rfl
    · intro hp0
      rw [e, if_neg (by omega)]
      constructor
      · intro hc
        rw [if_pos hc]
        exact ⟨rfl, rfl⟩
      · intro hc
        rw [if_neg hc]
        exact ⟨rfl, rfl⟩
  · intro hnone
    have hF : hist.filter (fun r => r.analyst_id == cur.analyst_id) = [] := by
      rw [List.filter_eq_nil_iff]
      intro r hr
      simp [hnone r hr]
    have hhead : (sortPreviousDesc
        (hist.filter (fun r => r.analyst_id == cur.analyst_id))).head? = none := by
      rw [hF]
      rfl
    have e := analyzeTrend_eq_of_no_head (k := k) hhead
    constructor
    · intro hc
      rw [e, if_pos hc]
      exact ⟨rfl, rfl⟩
    · intro hc
      rw [e, if_neg hc]
      exact ⟨rfl, rfl⟩

/-- C3 witness: instantiation at previous = 100, current = 106 (the
improving side of the dead zone). -/
theorem analyzeTrend_spec_witness :
    (analyzeTrend "outreaches" (exRecord "c1" "a1" 2 2025 106)
        [exRecord "p1" "a1" 1 2025 100]).changePercentage
      = jsRound (((kpiValue (exRecord "c1" "a1" 2 2025 106) "outreaches" : ℚ)
          - (kpiValue (exRecord "p1" "a1" 1 2025 100) "outreaches" : ℚ))
          / (kpiValue (exRecord "p1" "a1" 1 2025 100) "outreaches" : ℚ) * 100)
    ∧ (analyzeTrend "outreaches" (exRecord "c1" "a1" 2 2025 106)
        [exRecord "p1" "a1" 1 2025 100]).trend
      = (if 5 < (analyzeTrend "outreaches" (exRecord "c1" "a1" 2 2025 106)
            [exRecord "p1" "a1" 1 2025 100]).changePercentage
         then TrendDirection.improving
         else if (analyzeTrend "outreaches" (exRecord "c1" "a1" 2 2025 106)
            [exRecord "p1" "a1" 1 2025 100]).changePercentage < -5
         then TrendDirection.declining
         else TrendDirection.stable) :=
  ((analyzeTrend_spec "outreaches" (exRecord "c1" "a1" 2 2025 106)
      [exRecord "p1" "a1" 1 2025 100] (by decide) (by decide)
      (by decide) (by decide)).1
    (exRecord "p1" "a1" 1 2025 100) (by decide) (by decide) (by decide)).1
    (by decide)

example :
    (analyzeTrend "outreaches" (exRecord "c1" "a1" 2 2025 104)
      [exRecord "p1" "a1" 1 2025 100]).trend = TrendDirection.stable
    ∧ (analyzeTrend "outreaches" (exRecord "c1" "a1" 2 2025 104)
      [exRecord "p1" "a1" 1 2025 100]).changePercentage = 4 := by decide

example :
    (analyzeTrend "outreaches" (exRecord "c1" "a1" 2 2025 106)
      [exRecord "p1" "a1" 1 2025 100]).trend = TrendDirection.improving
    ∧ (analyzeTrend "outreaches" (exRecord "c1" "a1" 2 2025 94)
      [exRecord "p1" "a1" 1 2025 100]).trend = TrendDirection.declining
    ∧ (analyzeTrend "outreaches" (exRecord "c1" "a1" 2 2025 95)
      [exRecord "p1" "a1" 1 2025 100]).trend = TrendDirection.stable
    ∧ (analyzeTrend "outreaches" (exRecord "c1" "a1" 2 2025 95)
      [exRecord "p1" "a1" 1 2025 100]).changePercentage = -5 := by decide

example : jsAchievement 79 95 = .int 83 ∧ jsAchievement 80 95 = .int 84 := by decide
